import Mathlib

/-!
Verification development for the `smart_dent_ai` dental image analysis pipeline
(`backend/model.py`).  The pipeline is shallowly embedded: images are matrices of
8-bit channel values, real arithmetic is carried out in `ℚ`, and the OpenCV
library primitives that the code calls (color-space conversion, Canny, contour
extraction, Gaussian blur) are either modelled explicitly or abstracted as
parameters over which every theorem quantifies.
-/

namespace SmartDent

/-- An 8-bit RGB pixel `(red, green, blue)`, each channel in `0..255`. -/
abbrev RGB : Type := ℕ × ℕ × ℕ

/-- A fixed-size matrix, indexed row-then-column. -/
def Mat (h w : ℕ) (α : Type) : Type := Fin h → Fin w → α

/-- Row-major list of all entries of a matrix. -/
def Mat.toList {h w : ℕ} {α : Type} (m : Mat h w α) : List α :=
  (List.finRange h).flatMap fun i => (List.finRange w).map fun j => m i j

/-- Number of `true` entries of a boolean mask (`np.sum(mask)`). -/
def maskCount {h w : ℕ} (m : Mat h w Bool) : ℕ :=
  (Mat.toList m).count true

/-- The entries of `m` at the positions where `mask` is set, in row-major order
    (numpy boolean-mask indexing `m[mask]`). -/
def maskedList {h w : ℕ} {α : Type} (m : Mat h w α) (mask : Mat h w Bool) : List α :=
  (List.finRange h).flatMap fun i =>
    ((List.finRange w).filter fun j => mask i j).map fun j => m i j

/-- Arithmetic mean of a list of naturals, as a rational (`np.mean`;
    only used on non-empty lists, matching the guarded call sites). -/
def listMean (l : List ℕ) : ℚ :=
  (l.sum : ℚ) / (l.length : ℚ)

/-- Round a rational to the nearest integer, ties to even — the rounding used by
    Python's built-in `round`. -/
def pyRoundInt (y : ℚ) : ℤ :=
  if y - (⌊y⌋ : ℚ) < 1/2 then ⌊y⌋
  else if 1/2 < y - (⌊y⌋ : ℚ) then ⌊y⌋ + 1
  else if ⌊y⌋ % 2 = 0 then ⌊y⌋ else ⌊y⌋ + 1

/-- Model of Python `round(x, d)` on the idealized rational value. -/
def pyRound (x : ℚ) (d : ℕ) : ℚ :=
  (pyRoundInt (x * 10 ^ d) : ℚ) / 10 ^ d

theorem pyRoundInt_ge_floor (y : ℚ) : ⌊y⌋ ≤ pyRoundInt y := by
  unfold pyRoundInt
  split_ifs <;> omega

theorem pyRoundInt_le_ceil (y : ℚ) : pyRoundInt y ≤ ⌈y⌉ := by
  unfold pyRoundInt
  split_ifs with h1 h2 h3
  · exact Int.floor_le_ceil y
  · rw [Int.add_one_le_iff, Int.lt_ceil]
    have := Int.floor_le y
    linarith
  · exact Int.floor_le_ceil y
  · rw [Int.add_one_le_iff, Int.lt_ceil]
    have := Int.floor_le y
    linarith

theorem pyRound_nonneg (x : ℚ) (d : ℕ) (hx : 0 ≤ x) : 0 ≤ pyRound x d := by
  unfold pyRound
  have hy : (0 : ℚ) ≤ x * 10 ^ d := by positivity
  have h1 : (0 : ℤ) ≤ ⌊x * 10 ^ d⌋ := Int.floor_nonneg.mpr hy
  have h2 : (0 : ℤ) ≤ pyRoundInt (x * 10 ^ d) := le_trans h1 (pyRoundInt_ge_floor _)
  have h3 : (0 : ℚ) ≤ (pyRoundInt (x * 10 ^ d) : ℚ) := by exact_mod_cast h2
  positivity

theorem pyRound_le (x : ℚ) (d : ℕ) (k : ℤ) (hx : x ≤ (k : ℚ) / 10 ^ d) :
    pyRound x d ≤ (k : ℚ) / 10 ^ d := by
  unfold pyRound
  have hpow : (0 : ℚ) < 10 ^ d := by positivity
  have hy : x * 10 ^ d ≤ (k : ℚ) := by
    calc x * 10 ^ d ≤ ((k : ℚ) / 10 ^ d) * 10 ^ d := by
          exact mul_le_mul_of_nonneg_right hx (le_of_lt hpow)
      _ = (k : ℚ) := by field_simp
  have h1 : ⌈x * 10 ^ d⌉ ≤ k := Int.ceil_le.mpr hy
  have h2 : pyRoundInt (x * 10 ^ d) ≤ k := le_trans (pyRoundInt_le_ceil _) h1
  have h3 : (pyRoundInt (x * 10 ^ d) : ℚ) ≤ (k : ℚ) := by exact_mod_cast h2
  exact div_le_div_of_nonneg_right h3 (le_of_lt hpow)

/-- The linear-interpolation step of `np.percentile(·, 75)` on already-sorted data:
    position `0.75 * (n - 1)`, interpolating between the two neighbouring order
    statistics. -/
def interpolatedQuantile75 (s : List ℕ) : ℚ :=
  ((s.getD ⌊3 / 4 * ((s.length : ℚ) - 1)⌋.toNat 0 : ℕ) : ℚ) +
    (3 / 4 * ((s.length : ℚ) - 1) - ((⌊3 / 4 * ((s.length : ℚ) - 1)⌋.toNat : ℕ) : ℚ)) *
      (((s.getD ⌈3 / 4 * ((s.length : ℚ) - 1)⌉.toNat 0 : ℕ) : ℚ) -
        ((s.getD ⌊3 / 4 * ((s.length : ℚ) - 1)⌋.toNat 0 : ℕ) : ℚ))

/-- Model of `np.percentile(a, 75)` (default linear interpolation): sort the data
    and interpolate at position `0.75 * (n - 1)`. -/
def percentile75 (l : List ℕ) : ℚ :=
  interpolatedQuantile75 (l.insertionSort (· ≤ ·))

/-- Offsets `(di, dj)` of the set entries of
    `cv2.getStructuringElement(cv2.MORPH_ELLIPSE, (5, 5))` around the anchor. -/
def ellipse5 : List (ℤ × ℤ) :=
  [(-2, 0),
   (-1, -2), (-1, -1), (-1, 0), (-1, 1), (-1, 2),
   (0, -2), (0, -1), (0, 0), (0, 1), (0, 2),
   (1, -2), (1, -1), (1, 0), (1, 1), (1, 2),
   (2, 0)]

/-- All offsets of a 5×5 window around the anchor. -/
def square5 : List (ℤ × ℤ) :=
  (List.range 5).flatMap fun a =>
    (List.range 5).map fun b => ((a : ℤ) - 2, (b : ℤ) - 2)

/-- Shift an index by an integer offset; `none` when the result leaves the frame. -/
def shiftIdx {n : ℕ} (i : Fin n) (d : ℤ) : Option (Fin n) :=
  if h : 0 ≤ (i : ℤ) + d ∧ (i : ℤ) + d < n then
    some ⟨((i : ℤ) + d).toNat, by omega⟩
  else none

/-- Shift an index by an integer offset, clamping to the frame (border replication). -/
def clampIdx {n : ℕ} (i : Fin n) (d : ℤ) : Fin n :=
  ⟨(max 0 (min ((n : ℤ) - 1) ((i : ℤ) + d))).toNat, by
    have := i.isLt; omega⟩

/-- Morphological dilation with the 5×5 elliptical element (out-of-frame neighbours
    count as unset, matching the default border for `cv2.dilate`). -/
def dilate5 {h w : ℕ} (m : Mat h w Bool) : Mat h w Bool := fun i j =>
  ellipse5.any fun d =>
    match shiftIdx i d.1, shiftIdx j d.2 with
    | some i2, some j2 => m i2 j2
    | _, _ => false

/-- Morphological erosion with the 5×5 elliptical element (out-of-frame neighbours
    count as set, matching the default border for `cv2.erode`). -/
def erode5 {h w : ℕ} (m : Mat h w Bool) : Mat h w Bool := fun i j =>
  ellipse5.all fun d =>
    match shiftIdx i d.1, shiftIdx j d.2 with
    | some i2, some j2 => m i2 j2
    | _, _ => true

/-- `cv2.morphologyEx(m, cv2.MORPH_OPEN, kernel)`: erosion then dilation. -/
def morphOpen5 {h w : ℕ} (m : Mat h w Bool) : Mat h w Bool :=
  dilate5 (erode5 m)

/-- `cv2.morphologyEx(m, cv2.MORPH_CLOSE, kernel)`: dilation then erosion. -/
def morphClose5 {h w : ℕ} (m : Mat h w Bool) : Mat h w Bool :=
  erode5 (dilate5 m)

/-- Model of `cv2.medianBlur(m, 5)` on a 0/1 mask: the output pixel is set iff the
    median of the 25 window values (border replicated) is nonzero, i.e. at least 13
    of them are set. -/
def medianBlur5 {h w : ℕ} (m : Mat h w Bool) : Mat h w Bool := fun i j =>
  decide (13 ≤ (square5.filter fun d => m (clampIdx i d.1) (clampIdx j d.2)).length)

/-- `DentalAIModel.detect_teeth_region` (model.py lines 53-92).  The three
    `cv2.cvtColor` conversions are library calls, abstracted as the parameters
    `grayOf`, `labOf`, `hsvOf` (applied pixelwise); every theorem below holds for
    every choice of conversion.  The brightness mask is a strict comparison against
    the whole-image 75th percentile; the LAB condition `np.abs(a_channel - 128) < 20`
    is uint8 arithmetic, so the subtraction wraps modulo 256. -/
def detect_teeth_region {h w : ℕ} (grayOf : RGB → ℕ) (labOf hsvOf : RGB → ℕ × ℕ × ℕ)
    (img : Mat h w RGB) : Mat h w Bool :=
  let gray : Mat h w ℕ := fun i j => grayOf (img i j)
  let bright_threshold : ℚ := percentile75 (Mat.toList gray)
  let bright_mask : Mat h w Bool := fun i j => decide (bright_threshold < (gray i j : ℚ))
  let teeth_mask_lab : Mat h w Bool := fun i j =>
    decide (120 < (labOf (img i j)).1) &&
      decide (((labOf (img i j)).2.1 + 128) % 256 < 20)
  let teeth_mask_hsv : Mat h w Bool := fun i j =>
    decide ((hsvOf (img i j)).2.1 < 80) && decide (150 < (hsvOf (img i j)).2.2)
  let combined_mask : Mat h w Bool := fun i j =>
    bright_mask i j && teeth_mask_lab i j && teeth_mask_hsv i j
  medianBlur5 (morphClose5 (morphOpen5 combined_mask))

/-- The letter grade bands of `calculate_overall_score` (model.py lines 534-545). -/
def overall_grade (overall : ℚ) : String :=
  if 0.9 ≤ overall then "A+"
  else if 0.8 ≤ overall then "A"
  else if 0.7 ≤ overall then "B"
  else if 0.6 ≤ overall then "C"
  else if 0.5 ≤ overall then "D"
  else "F"

/-- The `overall_assessment` dictionary (model.py lines 547-552 / 556-561). -/
structure OverallResult where
  overall_score : ℚ
  grade : String
  yellowness_contribution : Option ℚ
  flaws_contribution : Option ℚ
deriving DecidableEq, Repr

/-- `DentalAIModel.calculate_overall_score` (model.py lines 515-552), as a function
    of the two input scores read from the result dictionaries.  The embedded
    arithmetic never raises, so the `except` fallback (lines 554-561) is dead. -/
def calculate_overall_score (yellowness_score flaw_score : ℚ) : OverallResult :=
  let yellowness_weight : ℚ := 0.4
  let flaws_weight : ℚ := 0.6
  let yellowness_health : ℚ := 1 - yellowness_score
  let flaws_health : ℚ := 1 - flaw_score
  let overall_score : ℚ :=
    max 0 (min 1 (yellowness_health * yellowness_weight + flaws_health * flaws_weight))
  { overall_score := pyRound overall_score 3
    grade := overall_grade overall_score
    yellowness_contribution := some (pyRound (yellowness_health * yellowness_weight) 3)
    flaws_contribution := some (pyRound (flaws_health * flaws_weight) 3) }

/-- The dictionary returned by `analyze_tooth_yellowness`.  Keys that are present
    only on some paths are modelled as `Option` fields (`none` = key absent). -/
structure YellownessResult where
  condition : String
  yellowness_score : ℚ
  severity : Option String
  whiteness_level : Option ℚ
  lab_b_value : Option ℚ
  yellow_hue_percentage : Option ℚ
  recommendations : Option (List String)
deriving DecidableEq, Repr

/-- Mean of the LAB lightness channel over the masked pixels (model.py line 122). -/
def masked_mean_lightness {h w : ℕ} (lab : Mat h w (ℕ × ℕ × ℕ)) (mask : Mat h w Bool) : ℚ :=
  listMean ((maskedList lab mask).map fun p => p.1)

/-- Mean of the LAB b channel over the masked pixels (model.py line 124). -/
def masked_mean_b {h w : ℕ} (lab : Mat h w (ℕ × ℕ × ℕ)) (mask : Mat h w Bool) : ℚ :=
  listMean ((maskedList lab mask).map fun p => p.2.2)

/-- Fraction of masked pixels whose HSV hue lies in `[15, 35]` (model.py lines 137-138). -/
def yellow_hue_fraction {h w : ℕ} (hsv : Mat h w (ℕ × ℕ × ℕ)) (mask : Mat h w Bool) : ℚ :=
  let hs := (maskedList hsv mask).map fun p => p.1
  ((hs.filter fun x => decide (15 ≤ x) && decide (x ≤ 35)).length : ℚ) / (hs.length : ℚ)

/-- The yellowness score arithmetic of model.py lines 128-149: LAB-b yellowness,
    combination with the hue fraction, clamp to `[0, 1]`, then the unclamped `* 1.2`
    penalty when whiteness is below `0.4`. -/
def yellowness_calc (mean_b mean_lightness hue_frac : ℚ) : ℚ :=
  let yellowness_b : ℚ := max 0 ((mean_b - 128) / 127)
  let score : ℚ := min 1 (max 0 (yellowness_b * 0.7 + hue_frac * 0.3))
  let whiteness_level : ℚ := mean_lightness / 255
  if whiteness_level < 0.4 then score * 1.2 else score

/-- The severity tiers of model.py lines 152-161. -/
def yellowness_severity (s : ℚ) : String :=
  if s < 0.15 then "Excellent - Very white teeth"
  else if s < 0.3 then "Good - Slight yellowness"
  else if s < 0.5 then "Fair - Moderate yellowness"
  else if s < 0.7 then "Poor - Significant yellowness"
  else "Critical - Severe yellowness"

/-- The cumulative recommendation tiers of model.py lines 164-189. -/
def yellowness_recommendations (s : ℚ) : List String :=
  (if 0.2 < s then
    ["Brush teeth twice daily with whitening toothpaste",
     "Reduce consumption of coffee, tea, and red wine",
     "Avoid smoking and tobacco products"] else []) ++
  (if 0.4 < s then
    ["Consider professional teeth whitening treatment",
     "Use whitening mouthwash daily",
     "Schedule dental cleaning every 6 months"] else []) ++
  (if 0.6 < s then
    ["Consult dentist for advanced whitening options",
     "Consider in-office whitening procedures",
     "Evaluate underlying causes of discoloration"] else []) ++
  (if s ≤ 0.15 then
    ["Maintain excellent oral hygiene",
     "Continue current dental care routine",
     "Regular dental checkups to maintain whiteness"] else [])

/-- `DentalAIModel.analyze_tooth_yellowness` (model.py lines 99-209), as a function
    of the LAB- and HSV-converted images (the two `cv2.cvtColor` calls on lines
    103-104 are library conversions applied upstream).  The embedded arithmetic
    never raises, so the `except` fallback (lines 201-209) is dead. -/
def analyze_tooth_yellowness {h w : ℕ} (lab hsv : Mat h w (ℕ × ℕ × ℕ))
    (mask : Mat h w Bool) : YellownessResult :=
  if maskCount mask = 0 then
    { condition := "tooth_yellowness"
      yellowness_score := 0
      severity := some "Cannot detect teeth"
      whiteness_level := some 0
      lab_b_value := none
      yellow_hue_percentage := none
      recommendations := some ["Please retake photo with better lighting and teeth visibility"] }
  else
    let mean_lightness := masked_mean_lightness lab mask
    let mean_b := masked_mean_b lab mask
    let hue_frac := yellow_hue_fraction hsv mask
    let score := yellowness_calc mean_b mean_lightness hue_frac
    { condition := "tooth_yellowness"
      yellowness_score := pyRound score 3
      severity := some (yellowness_severity score)
      whiteness_level := some (pyRound (mean_lightness / 255) 3)
      lab_b_value := some (pyRound mean_b 2)
      yellow_hue_percentage := some (pyRound (hue_frac * 100) 2)
      recommendations := some (yellowness_recommendations score) }

/-- One flaw sub-detector's result: its severity string and score.
    (model.py lines 319-513; the detector-specific metric keys play no role in any
    claim and are omitted.) -/
structure SubResult where
  severity : String
  score : ℚ
deriving DecidableEq, Repr

/-- The dictionary returned by `detect_basic_dental_flaws`; `Option` fields mark
    keys that are absent on some paths. -/
structure FlawsResult where
  condition : String
  flaw_score : ℚ
  issues_detected : Option (List String)
  severity : Option String
  detailed_analysis : Option (SubResult × SubResult × SubResult × SubResult)
  recommendations : Option (List String)
deriving DecidableEq, Repr

/-- The aggregate flaw score of model.py lines 229-260: collect the scores of the
    sub-detectors whose severity is not `"None"`, in detector order, and take their
    mean (`np.mean`), or `0.0` when no detector contributed. -/
def flaws_overall_score (ds es ts ps : SubResult) : ℚ :=
  let flaw_scores : List ℚ :=
    (if ds.severity ≠ "None" then [ds.score] else []) ++
    (if es.severity ≠ "None" then [es.score] else []) ++
    (if ts.severity ≠ "None" then [ts.score] else []) ++
    (if ps.severity ≠ "None" then [ps.score] else [])
  if flaw_scores.isEmpty then 0 else flaw_scores.sum / (flaw_scores.length : ℚ)

/-- The issue strings of model.py lines 229-254, accumulated in detector order. -/
def flaws_issues (ds es ts ps : SubResult) : List String :=
  (if ds.severity ≠ "None" then ["Dark spots detected: " ++ ds.severity] else []) ++
  (if es.severity ≠ "None" then ["Edge irregularities: " ++ es.severity] else []) ++
  (if ts.severity ≠ "None" then ["Surface irregularities: " ++ ts.severity] else []) ++
  (if ps.severity ≠ "None" then ["Plaque/tartar buildup: " ++ ps.severity] else [])

/-- The severity tiers of model.py lines 263-272. -/
def flaws_severity (s : ℚ) : String :=
  if s < 0.2 then "Excellent - No significant flaws"
  else if s < 0.4 then "Good - Minor issues"
  else if s < 0.6 then "Fair - Moderate issues"
  else if s < 0.8 then "Poor - Multiple issues"
  else "Critical - Severe issues"

/-- The cumulative recommendation tiers of model.py lines 275-293. -/
def flaws_recommendations (s : ℚ) : List String :=
  (if 0.3 < s then
    ["Schedule a dental examination",
     "Improve daily oral hygiene routine",
     "Consider professional cleaning"] else []) ++
  (if 0.5 < s then
    ["Urgent dental consultation recommended",
     "Address visible dental issues promptly",
     "Professional treatment may be required"] else []) ++
  (if s ≤ 0.2 then
    ["Maintain excellent oral care",
     "Continue regular dental checkups",
     "Keep up good oral hygiene habits"] else [])

/-- `DentalAIModel.detect_basic_dental_flaws` (model.py lines 211-317), as a
    function of the teeth mask and the results of the four sub-detectors.  The
    sub-detectors themselves (lines 319-513) are built on cv2 primitives
    (`findContours`, `Canny`, `GaussianBlur`, `inRange`) and are abstracted as
    inputs; every theorem below quantifies over them.  The embedded aggregation
    never raises, so the `except` fallback (lines 309-317) is dead. -/
def detect_basic_dental_flaws {h w : ℕ} (mask : Mat h w Bool)
    (ds es ts ps : SubResult) : FlawsResult :=
  if maskCount mask = 0 then
    { condition := "dental_flaws"
      flaw_score := 0
      issues_detected := some []
      severity := some "Cannot analyze"
      detailed_analysis := none
      recommendations := some ["Please retake photo with clearer teeth visibility"] }
  else
    let overall := flaws_overall_score ds es ts ps
    { condition := "dental_flaws"
      flaw_score := pyRound overall 3
      issues_detected := some (flaws_issues ds es ts ps)
      severity := some (flaws_severity overall)
      detailed_analysis := some (ds, es, ts, ps)
      recommendations := some (flaws_recommendations overall) }

/-- A caller-supplied raw image: its dimensions and its pixel grid. -/
structure RawImage where
  height : ℕ
  width : ℕ
  px : ℕ → ℕ → RGB

/-- `DentalAIModel.preprocess_image` (model.py lines 24-51): resize to 512×512 and
    scale to `[0, 1]`.  `cv2.resize` is modelled as sampling interpolation (on the
    constant images used below every interpolation agrees), and the float
    normalization `/255` composed with each stage's rescaling `*255` is modelled as
    the identity on 8-bit channel values. -/
def preprocess_image (raw : RawImage) : Mat 512 512 RGB := fun i j =>
  raw.px (i * raw.height / 512) (j * raw.width / 512)

/-- The three pixelwise `cv2.cvtColor` conversions used by the pipeline, abstracted
    as parameters: grayscale, LAB `(L, a, b)` and HSV `(h, s, v)`. -/
structure Conversions where
  grayOf : RGB → ℕ
  labOf : RGB → ℕ × ℕ × ℕ
  hsvOf : RGB → ℕ × ℕ × ℕ

/-- The four flaw sub-detectors (model.py lines 319-513), abstracted as functions
    from the preprocessed image and teeth mask to a `SubResult`. -/
structure SubDetectors where
  dark_spots : Mat 512 512 RGB → Mat 512 512 Bool → SubResult
  edge_issues : Mat 512 512 RGB → Mat 512 512 Bool → SubResult
  texture_issues : Mat 512 512 RGB → Mat 512 512 Bool → SubResult
  plaque_issues : Mat 512 512 RGB → Mat 512 512 Bool → SubResult

/-- The report dictionary assembled by `analyze_dental_image`; `Option` fields mark
    keys that exist only on one of the two paths (`user_info` only on success,
    `error` only on the degraded path). -/
structure AnalysisReport where
  timestamp : ℕ
  user_info : Option (List (String × String))
  error : Option String
  teeth_detected : Bool
  yellowness_analysis : YellownessResult
  flaws_analysis : FlawsResult
  overall_assessment : OverallResult
  primary_concerns : List String
  recommendations : List String
deriving DecidableEq, Repr

/-- The degraded fallback report of model.py lines 620-631. -/
def degraded_report (timestamp : ℕ) (e : String) : AnalysisReport :=
  { timestamp
    user_info := none
    error := some e
    teeth_detected := false
    yellowness_analysis :=
      { condition := "error", yellowness_score := 0, severity := none,
        whiteness_level := none, lab_b_value := none, yellow_hue_percentage := none,
        recommendations := none }
    flaws_analysis :=
      { condition := "error", flaw_score := 0, issues_detected := none,
        severity := none, detailed_analysis := none, recommendations := none }
    overall_assessment :=
      { overall_score := 0, grade := "F", yellowness_contribution := none,
        flaws_contribution := none }
    primary_concerns := ["Analysis failed"]
    recommendations := ["Please retake photo with better lighting"] }

/-- `DentalAIModel.analyze_dental_image` (model.py lines 563-631).  The wall-clock
    timestamp is a parameter; `input` is the decoded image, or `Except.error` when
    preprocessing raises (model.py line 51 re-raises, caught by the orchestrator's
    handler on line 618).  Returns the report together with the updated
    `analysis_history`; Python's `list(set(...))` deduplication of the summary
    recommendations is modelled as first-occurrence deduplication. -/
def analyze_dental_image (cv : Conversions) (det : SubDetectors) (timestamp : ℕ)
    (input : Except String RawImage) (user_info : Option (List (String × String)))
    (history : List AnalysisReport) : AnalysisReport × List AnalysisReport :=
  match input with
  | Except.error e => (degraded_report timestamp e, history)
  | Except.ok raw =>
    let img := preprocess_image raw
    let teeth_mask := detect_teeth_region cv.grayOf cv.labOf cv.hsvOf img
    let lab : Mat 512 512 (ℕ × ℕ × ℕ) := fun i j => cv.labOf (img i j)
    let hsv : Mat 512 512 (ℕ × ℕ × ℕ) := fun i j => cv.hsvOf (img i j)
    let yellowness_result := analyze_tooth_yellowness lab hsv teeth_mask
    let flaws_result := detect_basic_dental_flaws teeth_mask
      (det.dark_spots img teeth_mask) (det.edge_issues img teeth_mask)
      (det.texture_issues img teeth_mask) (det.plaque_issues img teeth_mask)
    let overall_result :=
      calculate_overall_score yellowness_result.yellowness_score flaws_result.flaw_score
    let concerns : List String :=
      (if 0.3 < yellowness_result.yellowness_score then
        ["Tooth yellowness: " ++ yellowness_result.severity.getD ""] else []) ++
      (if 0.3 < flaws_result.flaw_score then
        ["Dental flaws: " ++ flaws_result.severity.getD ""] else [])
    let recs : List String :=
      ((if 0.3 < yellowness_result.yellowness_score then
          (yellowness_result.recommendations.getD []).take 2 else []) ++
        (if 0.3 < flaws_result.flaw_score then
          (flaws_result.recommendations.getD []).take 2 else [])).dedup
    let report : AnalysisReport :=
      { timestamp
        user_info := some (user_info.getD [])
        error := none
        teeth_detected := decide (1000 < maskCount teeth_mask)
        yellowness_analysis := yellowness_result
        flaws_analysis := flaws_result
        overall_assessment := overall_result
        primary_concerns := concerns
        recommendations := recs }
    (report, history ++ [report])

/-! ### Concrete inputs used by the counterexamples and witnesses -/

/-- The test image of Scenario 1: uniform 480×480, every pixel `(240, 240, 240)`. -/
def uniformImage : RawImage :=
  { height := 480, width := 480, px := fun _ _ => (240, 240, 240) }

/-- A trivial choice of color conversions, for closed counterexamples. -/
def cvTriv : Conversions :=
  { grayOf := fun _ => 0, labOf := fun _ => (0, 0, 0), hsvOf := fun _ => (0, 0, 0) }

/-- A trivial choice of sub-detectors, for closed counterexamples. -/
def detTriv : SubDetectors :=
  { dark_spots := fun _ _ => ⟨"None", 0⟩
    edge_issues := fun _ _ => ⟨"None", 0⟩
    texture_issues := fun _ _ => ⟨"None", 0⟩
    plaque_issues := fun _ _ => ⟨"None", 0⟩ }

/-- A 1×1 all-true mask. -/
def maskTrue1 : Mat 1 1 Bool := fun _ _ => true

/-- A 1×1 all-false mask. -/
def maskFalse1 : Mat 1 1 Bool := fun _ _ => false

/-- A 1×1 LAB image with `L = 0`, `a = 0`, `b = 255`: maximally yellow, dark. -/
def labDarkYellow : Mat 1 1 (ℕ × ℕ × ℕ) := fun _ _ => (0, 0, 255)

/-- A 1×1 HSV image whose hue `20` lies inside the yellow band `[15, 35]`. -/
def hsvYellowHue : Mat 1 1 (ℕ × ℕ × ℕ) := fun _ _ => (20, 0, 0)

/-- A 1×3 all-true mask. -/
def maskTrue3 : Mat 1 3 Bool := fun _ _ => true

/-- A 1×3 LAB image with `b` values `128, 128, 129`, so the masked mean `b` is
    `385/3 = 128.333…`. -/
def labThirds : Mat 1 3 (ℕ × ℕ × ℕ) := fun _ j =>
  if j = (2 : Fin 3) then (255, 128, 129) else (255, 128, 128)

/-- A 1×3 HSV image with hue 0 everywhere (outside the yellow band). -/
def hsvZero3 : Mat 1 3 (ℕ × ℕ × ℕ) := fun _ _ => (0, 0, 0)

/-! ### Basic lemmas about matrices, masks and rounding -/

theorem Mat.mem_toList {h w : ℕ} {α : Type} {m : Mat h w α} {x : α} :
    x ∈ Mat.toList m ↔ ∃ i j, m i j = x := by
  simp [Mat.toList, List.mem_flatMap, List.mem_map, List.mem_finRange, eq_comm]

theorem maskCount_of_all_false {h w : ℕ} {m : Mat h w Bool}
    (hm : ∀ i j, m i j = false) : maskCount m = 0 := by
  unfold maskCount
  rw [List.count_eq_zero]
  intro hmem
  rcases Mat.mem_toList.mp hmem with ⟨i, j, hij⟩
  simp [hm i j] at hij

theorem Mat.toList_length {h w : ℕ} {α : Type} (m : Mat h w α) :
    (Mat.toList m).length = h * w := by
  unfold Mat.toList
  rw [List.length_flatMap]
  simp only [Function.comp_def, List.length_map, List.length_finRange,
    List.map_const', List.sum_replicate, smul_eq_mul]

theorem getD_all_eq {α : Type} [Inhabited α] (l : List α) (c : α)
    (hc : ∀ x ∈ l, x = c) (i : ℕ) (hi : i < l.length) (d : α) : l.getD i d = c := by
  rw [List.getD_eq_getElem l d hi]
  exact hc _ (List.getElem_mem hi)

theorem interpolatedQuantile75_all_eq (s : List ℕ) (c : ℕ) (h0 : s ≠ [])
    (hc : ∀ x ∈ s, x = c) : interpolatedQuantile75 s = c := by
  have hn : 0 < s.length := List.length_pos.mpr h0
  have hone : (1 : ℚ) ≤ (s.length : ℚ) := by exact_mod_cast hn
  have hrank1 : 3 / 4 * ((s.length : ℚ) - 1) ≤ (s.length : ℚ) - 1 := by nlinarith
  have hlo : ⌊3 / 4 * ((s.length : ℚ) - 1)⌋.toNat < s.length := by
    have h1 : ⌊3 / 4 * ((s.length : ℚ) - 1)⌋ ≤ ⌊(s.length : ℚ) - 1⌋ :=
      Int.floor_le_floor hrank1
    have h2 : ⌊(s.length : ℚ) - 1⌋ = (s.length : ℤ) - 1 := by
      rw [show ((s.length : ℚ) - 1) = (((s.length : ℤ) - 1 : ℤ) : ℚ) by push_cast; ring,
        Int.floor_intCast]
    omega
  have hhi : ⌈3 / 4 * ((s.length : ℚ) - 1)⌉.toNat < s.length := by
    have h1 : ⌈3 / 4 * ((s.length : ℚ) - 1)⌉ ≤ ⌈(s.length : ℚ) - 1⌉ :=
      Int.ceil_le_ceil hrank1
    have h2 : ⌈(s.length : ℚ) - 1⌉ = (s.length : ℤ) - 1 := by
      rw [show ((s.length : ℚ) - 1) = (((s.length : ℤ) - 1 : ℤ) : ℚ) by push_cast; ring,
        Int.ceil_intCast]
    omega
  unfold interpolatedQuantile75
  rw [getD_all_eq s c hc _ hlo, getD_all_eq s c hc _ hhi]
  ring

theorem percentile75_all_eq (l : List ℕ) (c : ℕ) (h0 : l ≠ [])
    (hc : ∀ x ∈ l, x = c) : percentile75 l = c := by
  unfold percentile75
  have hperm := List.perm_insertionSort (· ≤ ·) l
  apply interpolatedQuantile75_all_eq
  · intro hnil
    exact h0 (List.eq_nil_of_length_eq_zero (by rw [← hperm.length_eq, hnil]; rfl))
  · intro x hx
    exact hc x (hperm.mem_iff.mp hx)

theorem shiftIdx_zero {n : ℕ} (i : Fin n) : shiftIdx i 0 = some i := by
  unfold shiftIdx
  have hi := i.isLt
  rw [dif_pos (by omega)]
  simp [Fin.ext_iff]

theorem erode5_all_false {h w : ℕ} (m : Mat h w Bool) (hm : ∀ i j, m i j = false) :
    ∀ i j, erode5 m i j = false := by
  intro i j
  unfold erode5
  rw [List.all_eq_false]
  refine ⟨(0, 0), by simp [ellipse5], ?_⟩
  rw [shiftIdx_zero, shiftIdx_zero]
  simp [hm i j]

theorem dilate5_all_false {h w : ℕ} (m : Mat h w Bool) (hm : ∀ i j, m i j = false) :
    ∀ i j, dilate5 m i j = false := by
  intro i j
  unfold dilate5
  rw [List.any_eq_false]
  intro d _
  cases hsi : shiftIdx i d.1 <;> cases hsj : shiftIdx j d.2 <;> simp [hm]

theorem medianBlur5_all_false {h w : ℕ} (m : Mat h w Bool) (hm : ∀ i j, m i j = false) :
    ∀ i j, medianBlur5 m i j = false := by
  intro i j
  unfold medianBlur5
  have : (square5.filter fun d => m (clampIdx i d.1) (clampIdx j d.2)) = [] := by
    apply List.filter_eq_nil_iff.mpr
    intro d _
    simp [hm]
  simp [this]

/-- Opening, closing and the median filter all send the empty mask to the empty
    mask. -/
theorem cleanup_all_false {h w : ℕ} (m : Mat h w Bool) (hm : ∀ i j, m i j = false) :
    ∀ i j, medianBlur5 (morphClose5 (morphOpen5 m)) i j = false := by
  unfold morphOpen5 morphClose5
  exact medianBlur5_all_false _
    (erode5_all_false _ (dilate5_all_false _ (dilate5_all_false _
      (erode5_all_false _ hm))))

/-- On a constant image the strict 75th-percentile brightness mask is empty, so the
    whole combined mask, cleaned or not, is empty — for every choice of the three
    color conversions. -/
theorem detect_teeth_region_const (grayOf : RGB → ℕ) (labOf hsvOf : RGB → ℕ × ℕ × ℕ)
    {h w : ℕ} (hh : 0 < h) (hw : 0 < w) (p : RGB) :
    detect_teeth_region grayOf labOf hsvOf (fun _ _ => p : Mat h w RGB) =
      fun _ _ => false := by
  have hthr : percentile75 (Mat.toList (fun _ _ => grayOf p : Mat h w ℕ)) = grayOf p := by
    apply percentile75_all_eq _ (grayOf p)
    · intro hnil
      have hlen := Mat.toList_length (fun _ _ => grayOf p : Mat h w ℕ)
      rw [hnil] at hlen
      simp at hlen
      omega
    · intro x hx
      rcases Mat.mem_toList.mp hx with ⟨i, j, hij⟩
      exact hij.symm
  simp only [detect_teeth_region]
  funext i j
  apply cleanup_all_false
  intro a b
  rw [hthr]
  simp

theorem pyRoundInt_intCast (k : ℤ) : pyRoundInt (k : ℚ) = k := by
  unfold pyRoundInt
  rw [Int.floor_intCast]
  rw [if_pos (by norm_num)]

/-- `pyRound` is the identity on values that are exact multiples of `10^(-d)`. -/
theorem pyRound_of_mul_eq_int (x : ℚ) (d : ℕ) (k : ℤ) (hk : x * 10 ^ d = (k : ℚ)) :
    pyRound x d = x := by
  unfold pyRound
  rw [hk, pyRoundInt_intCast]
  have hpow : (10 : ℚ) ^ d ≠ 0 := by positivity
  field_simp at hk ⊢
  linarith [hk]

theorem pyRoundInt_eq_floor_of_lt_half (y : ℚ) (hr : y - (⌊y⌋ : ℚ) < 1/2) :
    pyRoundInt y = ⌊y⌋ := by
  unfold pyRoundInt
  rw [if_pos hr]

/-- `calculate_overall_score`, zeta-reduced. -/
theorem calculate_overall_score_def (ys fs : ℚ) :
    calculate_overall_score ys fs =
      { overall_score := pyRound (max 0 (min 1 ((1 - ys) * 0.4 + (1 - fs) * 0.6))) 3
        grade := overall_grade (max 0 (min 1 ((1 - ys) * 0.4 + (1 - fs) * 0.6)))
        yellowness_contribution := some (pyRound ((1 - ys) * 0.4) 3)
        flaws_contribution := some (pyRound ((1 - fs) * 0.6) 3) } := rfl

theorem overall_grade_bands (x : ℚ) :
    (overall_grade x = "A+" ↔ 0.9 ≤ x) ∧
    (overall_grade x = "A" ↔ 0.8 ≤ x ∧ x < 0.9) ∧
    (overall_grade x = "B" ↔ 0.7 ≤ x ∧ x < 0.8) ∧
    (overall_grade x = "C" ↔ 0.6 ≤ x ∧ x < 0.7) ∧
    (overall_grade x = "D" ↔ 0.5 ≤ x ∧ x < 0.6) ∧
    (overall_grade x = "F" ↔ x < 0.5) := by
  unfold overall_grade
  split_ifs with h1 h2 h3 h4 h5 <;>
    refine ⟨?_, ?_, ?_, ?_, ?_, ?_⟩ <;> simp <;>
      first
        | linarith
        | (constructor <;> linarith)
        | (intro hx; linarith)

/-- C5: for every pair of input scores the aggregator computes
    `overall = clamp(0.4*(1-discoloration) + 0.6*(1-flaw), 0, 1)` and maps it to a
    letter grade exactly by the bands `≥0.9→A+, ≥0.8→A, ≥0.7→B, ≥0.6→C, ≥0.5→D,
    else F`, boundary values falling to the lower grade (`overall = 0.8` exactly
    gives `A`, not `A+`); in particular `discoloration = 0.2, flaw = 0.1` gives
    overall `0.86`, grade `A`. -/
theorem calculate_overall_score_spec (ys fs : ℚ) :
    (calculate_overall_score ys fs).overall_score
        = pyRound (max 0 (min 1 ((1 - ys) * 0.4 + (1 - fs) * 0.6))) 3
    ∧ ((calculate_overall_score ys fs).grade = "A+"
        ↔ 0.9 ≤ max 0 (min 1 ((1 - ys) * 0.4 + (1 - fs) * 0.6)))
    ∧ ((calculate_overall_score ys fs).grade = "A"
        ↔ 0.8 ≤ max 0 (min 1 ((1 - ys) * 0.4 + (1 - fs) * 0.6))
          ∧ max 0 (min 1 ((1 - ys) * 0.4 + (1 - fs) * 0.6)) < 0.9)
    ∧ ((calculate_overall_score ys fs).grade = "B"
        ↔ 0.7 ≤ max 0 (min 1 ((1 - ys) * 0.4 + (1 - fs) * 0.6))
          ∧ max 0 (min 1 ((1 - ys) * 0.4 + (1 - fs) * 0.6)) < 0.8)
    ∧ ((calculate_overall_score ys fs).grade = "C"
        ↔ 0.6 ≤ max 0 (min 1 ((1 - ys) * 0.4 + (1 - fs) * 0.6))
          ∧ max 0 (min 1 ((1 - ys) * 0.4 + (1 - fs) * 0.6)) < 0.7)
    ∧ ((calculate_overall_score ys fs).grade = "D"
        ↔ 0.5 ≤ max 0 (min 1 ((1 - ys) * 0.4 + (1 - fs) * 0.6))
          ∧ max 0 (min 1 ((1 - ys) * 0.4 + (1 - fs) * 0.6)) < 0.6)
    ∧ ((calculate_overall_score ys fs).grade = "F"
        ↔ max 0 (min 1 ((1 - ys) * 0.4 + (1 - fs) * 0.6)) < 0.5)
    ∧ (calculate_overall_score 0.2 0.1).overall_score = 0.86
    ∧ (calculate_overall_score 0.2 0.1).grade = "A"
    ∧ (calculate_overall_score 0.2 0.2).overall_score = 0.8
    ∧ (calculate_overall_score 0.2 0.2).grade = "A" := by
  have hb := overall_grade_bands (max 0 (min 1 ((1 - ys) * 0.4 + (1 - fs) * 0.6)))
  have h86 : max (0:ℚ) (min 1 ((1 - 0.2) * 0.4 + (1 - 0.1) * 0.6)) = 0.86 := by
    rw [show ((1:ℚ) - 0.2) * 0.4 + ((1:ℚ) - 0.1) * 0.6 = 0.86 by norm_num,
      min_eq_right (by norm_num), max_eq_right (by norm_num)]
  have h80 : max (0:ℚ) (min 1 ((1 - 0.2) * 0.4 + (1 - 0.2) * 0.6)) = 0.8 := by
    rw [show ((1:ℚ) - 0.2) * 0.4 + ((1:ℚ) - 0.2) * 0.6 = 0.8 by norm_num,
      min_eq_right (by norm_num), max_eq_right (by norm_num)]
  refine ⟨rfl, hb.1, hb.2.1, hb.2.2.1, hb.2.2.2.1, hb.2.2.2.2.1, hb.2.2.2.2.2,
    ?_, ?_, ?_, ?_⟩
  · show pyRound (max 0 (min 1 ((1 - 0.2) * 0.4 + (1 - 0.1) * 0.6))) 3 = 0.86
    rw [h86]
    exact pyRound_of_mul_eq_int _ _ 860 (by norm_num)
  · show overall_grade (max 0 (min 1 ((1 - 0.2) * 0.4 + (1 - 0.1) * 0.6))) = "A"
    rw [h86]
    exact ((overall_grade_bands 0.86).2.1).mpr (by norm_num)
  · show pyRound (max 0 (min 1 ((1 - 0.2) * 0.4 + (1 - 0.2) * 0.6))) 3 = 0.8
    rw [h80]
    exact pyRound_of_mul_eq_int _ _ 800 (by norm_num)
  · show overall_grade (max 0 (min 1 ((1 - 0.2) * 0.4 + (1 - 0.2) * 0.6))) = "A"
    rw [h80]
    exact ((overall_grade_bands 0.8).2.1).mpr (by norm_num)

set_option maxRecDepth 100000 in
/-- C9: the analysis is deterministic — two invocations on the same image, the same
    metadata, the same conversions and detectors, differing only in the wall-clock
    timestamp, return reports that agree on every field except the timestamp. -/
theorem analyze_dental_image_deterministic (cv : Conversions) (det : SubDetectors)
    (t1 t2 : ℕ) (input : Except String RawImage)
    (ui : Option (List (String × String))) (hist : List AnalysisReport) :
    ((analyze_dental_image cv det t1 input ui hist).1.user_info
        = (analyze_dental_image cv det t2 input ui hist).1.user_info)
    ∧ ((analyze_dental_image cv det t1 input ui hist).1.error
        = (analyze_dental_image cv det t2 input ui hist).1.error)
    ∧ ((analyze_dental_image cv det t1 input ui hist).1.teeth_detected
        = (analyze_dental_image cv det t2 input ui hist).1.teeth_detected)
    ∧ ((analyze_dental_image cv det t1 input ui hist).1.yellowness_analysis
        = (analyze_dental_image cv det t2 input ui hist).1.yellowness_analysis)
    ∧ ((analyze_dental_image cv det t1 input ui hist).1.flaws_analysis
        = (analyze_dental_image cv det t2 input ui hist).1.flaws_analysis)
    ∧ ((analyze_dental_image cv det t1 input ui hist).1.overall_assessment
        = (analyze_dental_image cv det t2 input ui hist).1.overall_assessment)
    ∧ ((analyze_dental_image cv det t1 input ui hist).1.primary_concerns
        = (analyze_dental_image cv det t2 input ui hist).1.primary_concerns)
    ∧ ((analyze_dental_image cv det t1 input ui hist).1.recommendations
        = (analyze_dental_image cv det t2 input ui hist).1.recommendations) := by
  cases input <;> refine ⟨?_, ?_, ?_, ?_, ?_, ?_, ?_, ?_⟩ <;>
    simp only [analyze_dental_image, degraded_report]

/-- C8: on every successful analysis, `teeth_detected` is true iff the teeth mask
    has strictly more than 1000 set pixels. -/
theorem teeth_detected_iff_count_gt_1000 (cv : Conversions) (det : SubDetectors)
    (t : ℕ) (raw : RawImage) (ui : Option (List (String × String)))
    (hist : List AnalysisReport) :
    ((analyze_dental_image cv det t (Except.ok raw) ui hist).1.teeth_detected = true)
      ↔ 1000 < maskCount
          (detect_teeth_region cv.grayOf cv.labOf cv.hsvOf (preprocess_image raw)) := by
  simp only [analyze_dental_image]
  exact decide_eq_true_iff

/-- C3 (amended): on a successful analysis the returned report is appended to the
    history before being returned; on the degraded fallback path the report is
    returned without being appended — the history is left unchanged. -/
theorem history_appended_only_on_success (cv : Conversions) (det : SubDetectors)
    (t : ℕ) (raw : RawImage) (e : String) (ui : Option (List (String × String)))
    (hist : List AnalysisReport) :
    ((analyze_dental_image cv det t (Except.ok raw) ui hist).2
        = hist ++ [(analyze_dental_image cv det t (Except.ok raw) ui hist).1])
    ∧ ((analyze_dental_image cv det t (Except.error e) ui hist).2 = hist)
    ∧ ((analyze_dental_image cv det t (Except.error e) ui hist).1
        = degraded_report t e) := by
  refine ⟨?_, rfl, rfl⟩
  simp only [analyze_dental_image]

/-- C3 counterexample: a degraded invocation returns its report but leaves the
    history untouched — starting from an empty history, the history is still empty
    and in particular is not the one-element list holding the returned report. -/
theorem degraded_invocation_does_not_append :
    ((analyze_dental_image cvTriv detTriv 0 (Except.error "decode failure") none []).2
        = [])
    ∧ ((analyze_dental_image cvTriv detTriv 0 (Except.error "decode failure") none []).2
        ≠ [(analyze_dental_image cvTriv detTriv 0
              (Except.error "decode failure") none []).1]) := by
  refine ⟨rfl, ?_⟩
  simp only [analyze_dental_image]
  simp

/-- On the uniform Scenario-1 image the combined teeth mask is empty and the
    pipeline reports no teeth, zero discoloration and flaw scores, and overall
    `1.0` with grade `"A+"` — for every choice of conversions and sub-detectors. -/
theorem uniform_image_report (cv : Conversions) (det : SubDetectors) (t : ℕ)
    (ui : Option (List (String × String))) (hist : List AnalysisReport) :
    (detect_teeth_region cv.grayOf cv.labOf cv.hsvOf (preprocess_image uniformImage)
        = fun _ _ => false)
    ∧ (analyze_dental_image cv det t (Except.ok uniformImage) ui hist).1.teeth_detected
        = false
    ∧ (analyze_dental_image cv det t
        (Except.ok uniformImage) ui hist).1.yellowness_analysis.yellowness_score = 0
    ∧ (analyze_dental_image cv det t
        (Except.ok uniformImage) ui hist).1.yellowness_analysis.severity
        = some "Cannot detect teeth"
    ∧ (analyze_dental_image cv det t
        (Except.ok uniformImage) ui hist).1.flaws_analysis.flaw_score = 0
    ∧ (analyze_dental_image cv det t
        (Except.ok uniformImage) ui hist).1.flaws_analysis.issues_detected = some []
    ∧ (analyze_dental_image cv det t
        (Except.ok uniformImage) ui hist).1.overall_assessment.overall_score = 1
    ∧ (analyze_dental_image cv det t
        (Except.ok uniformImage) ui hist).1.overall_assessment.grade = "A+" := by
  have hmask : detect_teeth_region cv.grayOf cv.labOf cv.hsvOf
      (preprocess_image uniformImage) = (fun _ _ => false : Mat 512 512 Bool) := by
    have hpre : preprocess_image uniformImage
        = (fun _ _ => ((240 : ℕ), (240 : ℕ), (240 : ℕ)) : Mat 512 512 RGB) := rfl
    rw [hpre]
    exact detect_teeth_region_const _ _ _ (by norm_num) (by norm_num) _
  have hcount : maskCount (fun _ _ => false : Mat 512 512 Bool) = 0 :=
    maskCount_of_all_false (fun _ _ => rfl)
  have hclamp : max (0 : ℚ) (min 1 ((1 - 0) * 0.4 + (1 - 0) * 0.6)) = 1 := by
    rw [show ((1 : ℚ) - 0) * 0.4 + ((1 : ℚ) - 0) * 0.6 = 1 by norm_num, min_self,
      max_eq_right (by norm_num : (0 : ℚ) ≤ 1)]
  have hsc : (calculate_overall_score 0 0).overall_score = 1 := by
    rw [calculate_overall_score_def]
    dsimp only
    rw [hclamp]
    exact pyRound_of_mul_eq_int _ _ 1000 (by norm_num)
  have hgr : (calculate_overall_score 0 0).grade = "A+" := by
    rw [calculate_overall_score_def]
    dsimp only
    rw [hclamp]
    exact ((overall_grade_bands 1).1).mpr (by norm_num)
  refine ⟨hmask, ?_, ?_, ?_, ?_, ?_, ?_, ?_⟩ <;>
    simp only [analyze_dental_image, hmask, hcount, analyze_tooth_yellowness,
      detect_basic_dental_flaws, eq_self_iff_true, if_true] <;>
    first
      | rfl
      | exact hsc
      | exact hgr

/-- C1 (amended): for the uniform 480×480 image with every pixel `(240,240,240)`
    the strict greater-than-75th-percentile brightness mask is empty, forcing the
    combined teeth mask empty, and the report has `teeth_detected = false` and
    discoloration score 0 — but with both sub-scores 0 the overall score is
    `0.4*(1-0) + 0.6*(1-0) = 1.0` with grade `"A+"`, not `0.6` / `"C"`. -/
theorem scenario1_uniform_image (cv : Conversions) (det : SubDetectors) (t : ℕ)
    (ui : Option (List (String × String))) (hist : List AnalysisReport) :
    (detect_teeth_region cv.grayOf cv.labOf cv.hsvOf (preprocess_image uniformImage)
        = fun _ _ => false)
    ∧ (analyze_dental_image cv det t (Except.ok uniformImage) ui hist).1.teeth_detected
        = false
    ∧ (analyze_dental_image cv det t
        (Except.ok uniformImage) ui hist).1.yellowness_analysis.yellowness_score = 0
    ∧ (analyze_dental_image cv det t
        (Except.ok uniformImage) ui hist).1.yellowness_analysis.severity
        = some "Cannot detect teeth"
    ∧ (analyze_dental_image cv det t
        (Except.ok uniformImage) ui hist).1.flaws_analysis.flaw_score = 0
    ∧ (analyze_dental_image cv det t
        (Except.ok uniformImage) ui hist).1.flaws_analysis.issues_detected = some []
    ∧ (analyze_dental_image cv det t
        (Except.ok uniformImage) ui hist).1.overall_assessment.overall_score = 1
    ∧ (analyze_dental_image cv det t
        (Except.ok uniformImage) ui hist).1.overall_assessment.grade = "A+" :=
  uniform_image_report cv det t ui hist

/-- C1 counterexample: at the Scenario-1 input the returned overall score is `1`,
    not `0.6`, and the returned grade is `"A+"`, not `"C"`. -/
theorem scenario1_grade_is_not_C :
    ((analyze_dental_image cvTriv detTriv 0
        (Except.ok uniformImage) none []).1.overall_assessment.overall_score ≠ 0.6)
    ∧ ((analyze_dental_image cvTriv detTriv 0
        (Except.ok uniformImage) none []).1.overall_assessment.grade ≠ "C") := by
  obtain ⟨-, -, -, -, -, -, hsc, hgr⟩ := uniform_image_report cvTriv detTriv 0 none []
  constructor
  · rw [hsc]; norm_num
  · rw [hgr]; decide

/-- C6: on an entirely-false teeth mask the discoloration analyzer short-circuits
    with score 0, severity `"Cannot detect teeth"` and the single retake-photo
    recommendation, and the flaw stage returns score 0 with an empty issues list;
    both stages are total on the empty mask (no division by zero occurs). -/
theorem empty_mask_results {h w : ℕ} (lab hsv : Mat h w (ℕ × ℕ × ℕ))
    (mask : Mat h w Bool) (ds es ts ps : SubResult) (hm : maskCount mask = 0) :
    analyze_tooth_yellowness lab hsv mask =
      { condition := "tooth_yellowness", yellowness_score := 0,
        severity := some "Cannot detect teeth", whiteness_level := some 0,
        lab_b_value := none, yellow_hue_percentage := none,
        recommendations :=
          some ["Please retake photo with better lighting and teeth visibility"] }
    ∧ detect_basic_dental_flaws mask ds es ts ps =
      { condition := "dental_flaws", flaw_score := 0, issues_detected := some [],
        severity := some "Cannot analyze", detailed_analysis := none,
        recommendations :=
          some ["Please retake photo with clearer teeth visibility"] } := by
  unfold analyze_tooth_yellowness detect_basic_dental_flaws
  rw [if_pos hm, if_pos hm]
  exact ⟨rfl, rfl⟩

theorem empty_mask_results_witness :
    maskCount maskFalse1 = 0
    ∧ analyze_tooth_yellowness labDarkYellow hsvYellowHue maskFalse1 =
      { condition := "tooth_yellowness", yellowness_score := 0,
        severity := some "Cannot detect teeth", whiteness_level := some 0,
        lab_b_value := none, yellow_hue_percentage := none,
        recommendations :=
          some ["Please retake photo with better lighting and teeth visibility"] }
    ∧ detect_basic_dental_flaws maskFalse1 ⟨"None", 0⟩ ⟨"None", 0⟩ ⟨"None", 0⟩
        ⟨"None", 0⟩ =
      { condition := "dental_flaws", flaw_score := 0, issues_detected := some [],
        severity := some "Cannot analyze", detailed_analysis := none,
        recommendations :=
          some ["Please retake photo with clearer teeth visibility"] } :=
  have h0 : maskCount maskFalse1 = 0 := by
    simp [maskCount, Mat.toList, maskFalse1, List.finRange]
  have hr := empty_mask_results labDarkYellow hsvYellowHue maskFalse1
    ⟨"None", 0⟩ ⟨"None", 0⟩ ⟨"None", 0⟩ ⟨"None", 0⟩ h0
  ⟨h0, hr.1, hr.2⟩

/-- C7: the aggregate flaw score is the arithmetic mean of the scores of exactly
    the sub-detectors whose severity is not `"None"` — a `"None"` detector
    contributes neither a score nor an issue string — and it is 0 when all four
    report `"None"`. -/
theorem flaw_score_is_mean_of_reporting {h w : ℕ} (mask : Mat h w Bool)
    (ds es ts ps : SubResult) (hm : maskCount mask ≠ 0) :
    (flaws_overall_score ds es ts ps =
      if ([ds, es, ts, ps].filter fun r => decide (r.severity ≠ "None")).length = 0
      then 0
      else (([ds, es, ts, ps].filter fun r =>
              decide (r.severity ≠ "None")).map SubResult.score).sum
        / ((([ds, es, ts, ps].filter fun r =>
              decide (r.severity ≠ "None")).length : ℕ) : ℚ))
    ∧ (detect_basic_dental_flaws mask ds es ts ps).flaw_score
        = pyRound (flaws_overall_score ds es ts ps) 3
    ∧ (detect_basic_dental_flaws mask ds es ts ps).issues_detected
        = some (flaws_issues ds es ts ps)
    ∧ (flaws_issues ds es ts ps).length
        = ([ds, es, ts, ps].filter fun r => decide (r.severity ≠ "None")).length
    ∧ (ds.severity = "None" → es.severity = "None" → ts.severity = "None" →
        ps.severity = "None" → flaws_overall_score ds es ts ps = 0) := by
  refine ⟨?_, ?_, ?_, ?_, ?_⟩
  · by_cases h1 : ds.severity = "None" <;> by_cases h2 : es.severity = "None" <;>
      by_cases h3 : ts.severity = "None" <;> by_cases h4 : ps.severity = "None" <;>
      simp [flaws_overall_score, h1, h2, h3, h4, List.filter]
  · unfold detect_basic_dental_flaws
    rw [if_neg hm]
  · unfold detect_basic_dental_flaws
    rw [if_neg hm]
  · by_cases h1 : ds.severity = "None" <;> by_cases h2 : es.severity = "None" <;>
      by_cases h3 : ts.severity = "None" <;> by_cases h4 : ps.severity = "None" <;>
      simp [flaws_issues, h1, h2, h3, h4, List.filter]
  · intro h1 h2 h3 h4
    simp [flaws_overall_score, h1, h2, h3, h4]

theorem flaw_score_is_mean_of_reporting_witness :
    maskCount maskTrue1 ≠ 0
    ∧ ((flaws_overall_score ⟨"Mild", 1/2⟩ ⟨"None", 0⟩ ⟨"None", 0⟩ ⟨"None", 0⟩ =
        if (([⟨"Mild", 1/2⟩, ⟨"None", 0⟩, ⟨"None", 0⟩, ⟨"None", 0⟩] :
              List SubResult).filter fun r => decide (r.severity ≠ "None")).length = 0
        then 0
        else ((([⟨"Mild", 1/2⟩, ⟨"None", 0⟩, ⟨"None", 0⟩, ⟨"None", 0⟩] :
                List SubResult).filter fun r =>
                decide (r.severity ≠ "None")).map SubResult.score).sum
          / (((([⟨"Mild", 1/2⟩, ⟨"None", 0⟩, ⟨"None", 0⟩, ⟨"None", 0⟩] :
                List SubResult).filter fun r =>
                decide (r.severity ≠ "None")).length : ℕ) : ℚ))
      ∧ (detect_basic_dental_flaws maskTrue1 ⟨"Mild", 1/2⟩ ⟨"None", 0⟩ ⟨"None", 0⟩
            ⟨"None", 0⟩).flaw_score
          = pyRound (flaws_overall_score ⟨"Mild", 1/2⟩ ⟨"None", 0⟩ ⟨"None", 0⟩
              ⟨"None", 0⟩) 3
      ∧ (detect_basic_dental_flaws maskTrue1 ⟨"Mild", 1/2⟩ ⟨"None", 0⟩ ⟨"None", 0⟩
            ⟨"None", 0⟩).issues_detected
          = some (flaws_issues ⟨"Mild", 1/2⟩ ⟨"None", 0⟩ ⟨"None", 0⟩ ⟨"None", 0⟩)
      ∧ (flaws_issues ⟨"Mild", 1/2⟩ ⟨"None", 0⟩ ⟨"None", 0⟩ ⟨"None", 0⟩).length
          = (([⟨"Mild", 1/2⟩, ⟨"None", 0⟩, ⟨"None", 0⟩, ⟨"None", 0⟩] :
              List SubResult).filter fun r => decide (r.severity ≠ "None")).length
      ∧ ((⟨"Mild", 1/2⟩ : SubResult).severity = "None" →
          (⟨"None", 0⟩ : SubResult).severity = "None" →
          (⟨"None", 0⟩ : SubResult).severity = "None" →
          (⟨"None", 0⟩ : SubResult).severity = "None" →
          flaws_overall_score ⟨"Mild", 1/2⟩ ⟨"None", 0⟩ ⟨"None", 0⟩ ⟨"None", 0⟩ = 0)) :=
  have h1 : maskCount maskTrue1 ≠ 0 := by
    simp [maskCount, Mat.toList, maskTrue1, List.finRange]
  ⟨h1, flaw_score_is_mean_of_reporting maskTrue1 ⟨"Mild", 1/2⟩ ⟨"None", 0⟩
    ⟨"None", 0⟩ ⟨"None", 0⟩ h1⟩

/-- C10: in the uncovered score gaps the recommendation lists are empty — a final
    discoloration score strictly above `0.15` and at or below `0.2` triggers
    neither any advice tier (those start strictly above `0.2`) nor the
    maintenance-only set (which applies only at or below `0.15`); analogously, an
    aggregate flaw score strictly above `0.2` and at or below `0.3` produces an
    empty flaw recommendation list. -/
theorem recommendation_gap (s t : ℚ) (hs1 : 0.15 < s) (hs2 : s ≤ 0.2)
    (ht1 : 0.2 < t) (ht2 : t ≤ 0.3) :
    yellowness_recommendations s = [] ∧ flaws_recommendations t = [] := by
  constructor
  · unfold yellowness_recommendations
    rw [if_neg (by intro hcon; linarith), if_neg (by intro hcon; linarith),
      if_neg (by intro hcon; linarith), if_neg (by intro hcon; linarith)]
    rfl
  · unfold flaws_recommendations
    rw [if_neg (by intro hcon; linarith), if_neg (by intro hcon; linarith),
      if_neg (by intro hcon; linarith)]
    rfl

theorem recommendation_gap_witness :
    ((0.15 : ℚ) < 0.18 ∧ (0.18 : ℚ) ≤ 0.2 ∧ (0.2 : ℚ) < 0.25 ∧ (0.25 : ℚ) ≤ 0.3)
    ∧ yellowness_recommendations 0.18 = []
    ∧ flaws_recommendations 0.25 = [] :=
  ⟨by norm_num,
    (recommendation_gap 0.18 0.25 (by norm_num) (by norm_num) (by norm_num)
      (by norm_num)).1,
    (recommendation_gap 0.18 0.25 (by norm_num) (by norm_num) (by norm_num)
      (by norm_num)).2⟩

/-- The score arithmetic of lines 128-149 stays in `[0, 1.2]`: the clamp puts the
    combined score in `[0, 1]` and the dark-teeth branch multiplies it by `1.2`
    without re-clamping. -/
theorem yellowness_calc_bounds (b L f : ℚ) :
    0 ≤ yellowness_calc b L f ∧ yellowness_calc b L f ≤ 1.2 := by
  simp only [yellowness_calc]
  set s : ℚ := min 1 (max 0 (max 0 ((b - 128) / 127) * 0.7 + f * 0.3)) with hs
  have h0 : (0 : ℚ) ≤ s := by
    rw [hs]
    exact le_min (by norm_num) (le_max_left _ _)
  have h1 : s ≤ 1 := by
    rw [hs]
    exact min_le_left _ _
  split_ifs with hw
  · constructor <;> nlinarith
  · constructor <;> nlinarith

/-- C2 (amended): the discoloration score returned by the analyzer always lies in
    `[0, 1.2]`.  The combined score `0.7*y_lab + 0.3*hue_fraction` is clamped to
    `[0, 1]`, but the subsequent `* 1.2` applied when whiteness is below `0.4` is
    **not** re-clamped, so returned scores up to `1.2` are possible. -/
theorem yellowness_score_bounds {h w : ℕ} (lab hsv : Mat h w (ℕ × ℕ × ℕ))
    (mask : Mat h w Bool) :
    0 ≤ (analyze_tooth_yellowness lab hsv mask).yellowness_score
    ∧ (analyze_tooth_yellowness lab hsv mask).yellowness_score ≤ 1.2 := by
  unfold analyze_tooth_yellowness
  split_ifs with hm
  · constructor <;> norm_num
  · dsimp only
    have hb := yellowness_calc_bounds (masked_mean_b lab mask)
      (masked_mean_lightness lab mask) (yellow_hue_fraction hsv mask)
    have h12 : ((1200 : ℤ) : ℚ) / 10 ^ 3 = 1.2 := by norm_num
    constructor
    · exact pyRound_nonneg _ _ hb.1
    · have hle := pyRound_le (yellowness_calc (masked_mean_b lab mask)
        (masked_mean_lightness lab mask) (yellow_hue_fraction hsv mask)) 3 1200
        (by rw [h12]; exact hb.2)
      rw [h12] at hle
      exact hle

/-- C2 counterexample: a single masked pixel that is maximally yellow
    (`LAB b = 255`), dark (`LAB L = 0`) and inside the yellow hue band gives a
    clamped combined score of `1`, which the un-re-clamped dark-teeth branch turns
    into a returned score of `1.2 > 1`. -/
theorem yellowness_score_can_exceed_one :
    (analyze_tooth_yellowness labDarkYellow hsvYellowHue maskTrue1).yellowness_score
        = 6/5
    ∧ ¬((analyze_tooth_yellowness labDarkYellow hsvYellowHue
          maskTrue1).yellowness_score ≤ 1) := by
  have hm : maskCount maskTrue1 = 1 := by
    simp [maskCount, Mat.toList, maskTrue1, List.finRange]
  have hmb : masked_mean_b labDarkYellow maskTrue1 = 255 := by
    simp [masked_mean_b, maskedList, labDarkYellow, maskTrue1, listMean,
      List.finRange]
  have hml : masked_mean_lightness labDarkYellow maskTrue1 = 0 := by
    simp [masked_mean_lightness, maskedList, labDarkYellow, maskTrue1, listMean,
      List.finRange]
  have hf : yellow_hue_fraction hsvYellowHue maskTrue1 = 1 := by
    simp [yellow_hue_fraction, maskedList, hsvYellowHue, maskTrue1, List.finRange]
  have hcalc : yellowness_calc 255 0 1 = 6/5 := by
    unfold yellowness_calc
    norm_num
  have hscore : (analyze_tooth_yellowness labDarkYellow hsvYellowHue
      maskTrue1).yellowness_score = pyRound (6/5) 3 := by
    unfold analyze_tooth_yellowness
    rw [if_neg (by rw [hm]; omega)]
    dsimp only
    rw [hmb, hml, hf, hcalc]
  have h65 : pyRound (6/5 : ℚ) 3 = 6/5 :=
    pyRound_of_mul_eq_int _ _ 1200 (by norm_num)
  rw [hscore, h65]
  constructor
  · rfl
  · norm_num

/-- C4 (amended): the rounding actually applied field by field — the top-level
    scores (`yellowness_score`, `whiteness_level`, `flaw_score`, `overall_score`)
    are rounded to 3 decimal places, but `lab_b_value` and `yellow_hue_percentage`
    are rounded to 2, and the four sub-detector results are embedded in
    `detailed_analysis` with their scores unrounded. -/
theorem report_field_rounding {h w : ℕ} (lab hsv : Mat h w (ℕ × ℕ × ℕ))
    (mask : Mat h w Bool) (ds es ts ps : SubResult) (hm : maskCount mask ≠ 0) :
    (analyze_tooth_yellowness lab hsv mask).yellowness_score
        = pyRound (yellowness_calc (masked_mean_b lab mask)
            (masked_mean_lightness lab mask) (yellow_hue_fraction hsv mask)) 3
    ∧ (analyze_tooth_yellowness lab hsv mask).whiteness_level
        = some (pyRound (masked_mean_lightness lab mask / 255) 3)
    ∧ (analyze_tooth_yellowness lab hsv mask).lab_b_value
        = some (pyRound (masked_mean_b lab mask) 2)
    ∧ (analyze_tooth_yellowness lab hsv mask).yellow_hue_percentage
        = some (pyRound (yellow_hue_fraction hsv mask * 100) 2)
    ∧ (detect_basic_dental_flaws mask ds es ts ps).flaw_score
        = pyRound (flaws_overall_score ds es ts ps) 3
    ∧ (detect_basic_dental_flaws mask ds es ts ps).detailed_analysis
        = some (ds, es, ts, ps)
    ∧ (∀ ys fs : ℚ, (calculate_overall_score ys fs).overall_score
        = pyRound (max 0 (min 1 ((1 - ys) * 0.4 + (1 - fs) * 0.6))) 3) := by
  unfold analyze_tooth_yellowness detect_basic_dental_flaws
  rw [if_neg hm, if_neg hm]
  exact ⟨rfl, rfl, rfl, rfl, rfl, rfl, fun ys fs => rfl⟩

theorem report_field_rounding_witness :
    maskCount maskTrue3 ≠ 0
    ∧ ((analyze_tooth_yellowness labThirds hsvZero3 maskTrue3).yellowness_score
        = pyRound (yellowness_calc (masked_mean_b labThirds maskTrue3)
            (masked_mean_lightness labThirds maskTrue3)
            (yellow_hue_fraction hsvZero3 maskTrue3)) 3
      ∧ (analyze_tooth_yellowness labThirds hsvZero3 maskTrue3).whiteness_level
        = some (pyRound (masked_mean_lightness labThirds maskTrue3 / 255) 3)
      ∧ (analyze_tooth_yellowness labThirds hsvZero3 maskTrue3).lab_b_value
        = some (pyRound (masked_mean_b labThirds maskTrue3) 2)
      ∧ (analyze_tooth_yellowness labThirds hsvZero3 maskTrue3).yellow_hue_percentage
        = some (pyRound (yellow_hue_fraction hsvZero3 maskTrue3 * 100) 2)
      ∧ (detect_basic_dental_flaws maskTrue3 ⟨"Mild", 1/3⟩ ⟨"None", 0⟩ ⟨"None", 0⟩
            ⟨"None", 0⟩).flaw_score
        = pyRound (flaws_overall_score ⟨"Mild", 1/3⟩ ⟨"None", 0⟩ ⟨"None", 0⟩
            ⟨"None", 0⟩) 3
      ∧ (detect_basic_dental_flaws maskTrue3 ⟨"Mild", 1/3⟩ ⟨"None", 0⟩ ⟨"None", 0⟩
            ⟨"None", 0⟩).detailed_analysis
        = some (⟨"Mild", 1/3⟩, ⟨"None", 0⟩, ⟨"None", 0⟩, ⟨"None", 0⟩)
      ∧ (∀ ys fs : ℚ, (calculate_overall_score ys fs).overall_score
        = pyRound (max 0 (min 1 ((1 - ys) * 0.4 + (1 - fs) * 0.6))) 3)) :=
  have h3 : maskCount maskTrue3 ≠ 0 := by
    simp [maskCount, Mat.toList, maskTrue3, List.finRange]
  ⟨h3, report_field_rounding labThirds hsvZero3 maskTrue3 ⟨"Mild", 1/3⟩ ⟨"None", 0⟩
    ⟨"None", 0⟩ ⟨"None", 0⟩ h3⟩

/-- C4 counterexample: with masked LAB b-values `128, 128, 129` the mean b is
    `385/3 = 128.33…`; the report carries `lab_b_value = round(mean_b, 2) = 128.33`,
    which differs from the 3-decimal rounding `128.333`; and a sub-detector score
    of `1/3` is embedded unrounded in `detailed_analysis` although
    `round(1/3, 3) = 0.333 ≠ 1/3`. -/
theorem rounding_is_not_three_decimals :
    masked_mean_b labThirds maskTrue3 = 385/3
    ∧ (analyze_tooth_yellowness labThirds hsvZero3 maskTrue3).lab_b_value
        = some (12833/100)
    ∧ pyRound (385/3) 3 = 128333/1000
    ∧ (12833/100 : ℚ) ≠ 128333/1000
    ∧ (detect_basic_dental_flaws maskTrue1 ⟨"Mild", 1/3⟩ ⟨"None", 0⟩ ⟨"None", 0⟩
          ⟨"None", 0⟩).detailed_analysis
        = some (⟨"Mild", 1/3⟩, ⟨"None", 0⟩, ⟨"None", 0⟩, ⟨"None", 0⟩)
    ∧ pyRound (1/3) 3 ≠ (1/3 : ℚ) := by
  have hm3 : maskCount maskTrue3 = 3 := by
    simp [maskCount, Mat.toList, maskTrue3, List.finRange]
  have hm1 : maskCount maskTrue1 ≠ 0 := by
    simp [maskCount, Mat.toList, maskTrue1, List.finRange]
  have hmb3 : masked_mean_b labThirds maskTrue3 = 385/3 := by
    simp [masked_mean_b, maskedList, labThirds, maskTrue3, listMean, List.finRange]
  have hfloor2 : ⌊(38500 : ℚ)/3⌋ = 12833 := by
    rw [Int.floor_eq_iff]
    constructor <;> norm_num
  have hpr2 : pyRound ((385 : ℚ)/3) 2 = 12833/100 := by
    unfold pyRound
    rw [show (385 : ℚ)/3 * 10 ^ 2 = 38500/3 by norm_num,
      pyRoundInt_eq_floor_of_lt_half _ (by rw [hfloor2]; norm_num), hfloor2]
    norm_num
  have hfloor3 : ⌊(385000 : ℚ)/3⌋ = 128333 := by
    rw [Int.floor_eq_iff]
    constructor <;> norm_num
  have hpr3 : pyRound ((385 : ℚ)/3) 3 = 128333/1000 := by
    unfold pyRound
    rw [show (385 : ℚ)/3 * 10 ^ 3 = 385000/3 by norm_num,
      pyRoundInt_eq_floor_of_lt_half _ (by rw [hfloor3]; norm_num), hfloor3]
    norm_num
  have hfloor13 : ⌊(1000 : ℚ)/3⌋ = 333 := by
    rw [Int.floor_eq_iff]
    constructor <;> norm_num
  have hpr13 : pyRound ((1 : ℚ)/3) 3 = 333/1000 := by
    unfold pyRound
    rw [show (1 : ℚ)/3 * 10 ^ 3 = 1000/3 by norm_num,
      pyRoundInt_eq_floor_of_lt_half _ (by rw [hfloor13]; norm_num), hfloor13]
    norm_num
  refine ⟨hmb3, ?_, hpr3, by norm_num, ?_, by rw [hpr13]; norm_num⟩
  · unfold analyze_tooth_yellowness
    rw [if_neg (by rw [hm3]; omega)]
    dsimp only
    rw [hmb3, hpr2]
  · unfold detect_basic_dental_flaws
    rw [if_neg hm1]

end SmartDent
